import Mathlib

/-!
# Verification of the DevOps REST API metrics core (`app/main.py`)

This file gives a shallow embedding of the metrics-collection core of the
FastAPI service in `app/main.py` and proves the specification claims about it.

Modelling conventions:

* Python floats are modelled as `ℚ`.  `round(x, 2)` is modelled as decimal
  round-half-to-even at two places (`pyRound2`), `int(x)` as truncation toward
  zero (`pyInt`), and the list slice `xs[:limit]` (with `limit` a Python `int`,
  possibly negative) as `pyTake`.
* The psutil / platform / clock collaborators are modelled by a `PsutilEnv`
  record holding the values the one request observes.  A psutil call that can
  raise is an `Except PyExc` value; `psutil.cpu_count` and
  `psutil.disk_io_counters` return `None` instead of raising, hence `Option`.
* A raised (uncaught) Python exception is an `Except.error`; `HTTPException`
  raised by the handlers is the `PyExc.httpException` constructor.
* All arithmetic used inside the embedded code is built from kernel-reducible
  operations (`mkRat`, `Int.tdiv`, integer division) so that concrete runs of
  the embedded functions evaluate by `decide`/`rfl`; bridge lemmas relate them
  to the usual Mathlib operations.
-/

namespace DevOpsApi

/-- Floor of a rational, computably: `q.num / q.den` with Euclidean integer
division (equal to `⌊q⌋`, see `ratFloor_eq`). -/
def ratFloor (q : ℚ) : ℤ := q.num / (q.den : ℤ)

/-- Kernel-reducible multiplication on `ℚ` (equal to `*`, see `qmul_eq`). -/
def qmul (a b : ℚ) : ℚ := mkRat (a.num * b.num) (a.den * b.den)

/-- Kernel-reducible subtraction on `ℚ` (equal to `-`, see `qsub_eq`). -/
def qsub (a b : ℚ) : ℚ := mkRat (a.num * (b.den : ℤ) - b.num * (a.den : ℤ)) (a.den * b.den)

/-- The rational 1/2, built computably. -/
def oneHalf : ℚ := mkRat 1 2

/-- Round a rational to the nearest integer, ties to even: the semantics of
Python's built-in `round` on an exact decimal value. -/
def roundHalfEven (q : ℚ) : ℤ :=
  let f := ratFloor q
  let r := qsub q (f : ℚ)
  if r < oneHalf then f
  else if oneHalf < r then f + 1
  else if f % 2 = 0 then f else f + 1

/-- Python's `round(x, 2)`: round to two decimal places, ties to even. -/
def pyRound2 (q : ℚ) : ℚ := mkRat (roundHalfEven (qmul q 100)) 100

/-- Python's `int(x)` on a float: truncation toward zero. -/
def pyInt (q : ℚ) : ℤ := q.num.tdiv (q.den : ℤ)

/-- Python's list slice `xs[:limit]` for an arbitrary (possibly negative)
integer `limit`: a nonnegative `limit` keeps the first `limit` elements, a
negative `limit` drops the last `-limit` elements. -/
def pyTake {α : Type} (limit : ℤ) (l : List α) : List α :=
  if 0 ≤ limit then l.take limit.toNat else l.take (l.length - (-limit).toNat)

/-- Python's `round(n / 1e9, 2)` applied to a byte count, as in the source's
gigabyte conversions. -/
def gbOf (n : ℕ) : ℚ := pyRound2 (mkRat (n : ℤ) 1000000000)

/-- Python's `round(n / 1e6, 2)` applied to a byte count, as in the source's
megabyte conversions. -/
def mbOf (n : ℕ) : ℚ := pyRound2 (mkRat (n : ℤ) 1000000)

/-- A raised Python exception: either a FastAPI `HTTPException` carrying a
status code and detail message, or any other exception (psutil/OS errors). -/
inductive PyExc where
  | httpException (statusCode : ℕ) (detail : String)
  | oserror (msg : String)
deriving DecidableEq

/-- Result of `psutil.virtual_memory()`: byte totals and a percent. -/
structure MemRaw where
  total : ℕ
  used : ℕ
  available : ℕ
  percent : ℚ
deriving DecidableEq

/-- Result of `psutil.swap_memory()`. -/
structure SwapRaw where
  total : ℕ
  used : ℕ
  percent : ℚ
deriving DecidableEq

/-- Result of `psutil.disk_usage(path)`. -/
structure UsageRaw where
  total : ℕ
  used : ℕ
  free : ℕ
  percent : ℚ
deriving DecidableEq

/-- Result of `psutil.disk_io_counters()` when it is not `None`. -/
structure IoRaw where
  read_bytes : ℕ
  write_bytes : ℕ
deriving DecidableEq

/-- Result of `psutil.net_io_counters()`. -/
structure NetRaw where
  bytes_sent : ℕ
  bytes_recv : ℕ
  packets_sent : ℕ
  packets_recv : ℕ
  errin : ℕ
  errout : ℕ
deriving DecidableEq

/-- One row yielded by `psutil.process_iter([...])`: the `p.info` fields the
source reads.  `cpu_percent` and `memory_percent` may be `None` (the source
applies `or 0`). -/
structure ProcRaw where
  pid : ℤ
  name : String
  cpu_percent : Option ℚ
  memory_percent : Option ℚ
  status : String
deriving DecidableEq

/-- Everything one request observes from psutil, `platform` and the clock.
An `Except` field models a psutil call that may raise; an entry of `none` in
`process_iter` models a row whose field read raises `NoSuchProcess` or
`AccessDenied`.  `now_sys` is the `datetime.now` read inside
`get_system_info`; `now_agg` is the `datetime.now` read at the top of the
endpoint handlers (two separate reads in the source). -/
structure PsutilEnv where
  cpu_percent_overall : Except PyExc ℚ
  cpu_percent_percpu : Except PyExc (List ℚ)
  cpu_count_logical : Option ℕ
  cpu_count_physical : Option ℕ
  getloadavg : Except PyExc (ℚ × ℚ × ℚ)
  virtual_memory : Except PyExc MemRaw
  swap_memory : Except PyExc SwapRaw
  disk_usage : String → Except PyExc UsageRaw
  disk_io_counters : Option IoRaw
  net_io_counters : Except PyExc NetRaw
  boot_time : Except PyExc ℚ
  now_sys : ℚ
  now_agg : ℚ
  node : String
  system : String
  release : String
  machine : String
  python_version : String
  pids : List ℤ
  process_iter : Except PyExc (List (Option ProcRaw))

/-- The dict returned by `get_cpu_info`. -/
structure CpuInfo where
  percent : ℚ
  percent_per_core : List ℚ
  core_count : Option ℕ
  core_count_physical : Option ℕ
  load_avg : List ℚ
deriving DecidableEq

/-- The `"ram"` sub-dict of `get_memory_info`. -/
structure RamInfo where
  total_gb : ℚ
  used_gb : ℚ
  available_gb : ℚ
  percent : ℚ
deriving DecidableEq

/-- The `"swap"` sub-dict of `get_memory_info`. -/
structure SwapInfo where
  total_gb : ℚ
  used_gb : ℚ
  percent : ℚ
deriving DecidableEq

/-- The dict returned by `get_memory_info`. -/
structure MemoryInfo where
  ram : RamInfo
  swap : SwapInfo
deriving DecidableEq

/-- The optional `"io"` sub-dict of `get_disk_info`. -/
structure IoInfo where
  read_mb : ℚ
  write_mb : ℚ
deriving DecidableEq

/-- The dict returned by `get_disk_info`. -/
structure DiskInfo where
  path : String
  total_gb : ℚ
  used_gb : ℚ
  free_gb : ℚ
  percent : ℚ
  io : Option IoInfo
deriving DecidableEq

/-- The dict returned by `get_network_info`. -/
structure NetworkInfo where
  bytes_sent_mb : ℚ
  bytes_recv_mb : ℚ
  packets_sent : ℕ
  packets_recv : ℕ
  errors_in : ℕ
  errors_out : ℕ
deriving DecidableEq

/-- The dict returned by `get_system_info`.  `boot_time` is the UTC instant
(the source serializes it via `isoformat`). -/
structure SystemInfo where
  hostname : String
  os : String
  os_release : String
  architecture : String
  python_version : String
  boot_time : ℚ
  uptime_seconds : ℤ
  process_count : ℕ
deriving DecidableEq

/-- One entry of the list returned by `get_top_processes`. -/
structure ProcInfo where
  pid : ℤ
  name : String
  cpu_percent : ℚ
  memory_percent : ℚ
  status : String
deriving DecidableEq

/-- The dict returned by the `/metrics` handler `get_all_metrics`. -/
structure Metrics where
  timestamp : ℚ
  system : SystemInfo
  cpu : CpuInfo
  memory : MemoryInfo
  disk : DiskInfo
  network : NetworkInfo
  top_processes : List ProcInfo
deriving DecidableEq

/-- The dict returned by the `/processes` handler `get_processes`. -/
structure ProcessesResponse where
  timestamp : ℚ
  count : ℤ
  processes : List ProcInfo
deriving DecidableEq

/-- Embedding of `get_cpu_info` (main.py:41-49). -/
def get_cpu_info (env : PsutilEnv) : Except PyExc CpuInfo := do
  let overall ← env.cpu_percent_overall
  let percpu ← env.cpu_percent_percpu
  let la ← env.getloadavg
  pure
    { percent := pyRound2 overall
      percent_per_core := percpu.map pyRound2
      core_count := env.cpu_count_logical
      core_count_physical := env.cpu_count_physical
      load_avg := [pyRound2 la.1, pyRound2 la.2.1, pyRound2 la.2.2] }

/-- Embedding of `get_memory_info` (main.py:52-68). -/
def get_memory_info (env : PsutilEnv) : Except PyExc MemoryInfo := do
  let ram ← env.virtual_memory
  let swap ← env.swap_memory
  pure
    { ram :=
        { total_gb := gbOf ram.total
          used_gb := gbOf ram.used
          available_gb := gbOf ram.available
          percent := pyRound2 ram.percent }
      swap :=
        { total_gb := gbOf swap.total
          used_gb := gbOf swap.used
          percent := pyRound2 swap.percent } }

/-- The `try` body of `get_disk_info` (main.py:73-88). -/
def disk_body (env : PsutilEnv) (path : String) : Except PyExc DiskInfo := do
  let usage ← env.disk_usage path
  pure
    { path := path
      total_gb := gbOf usage.total
      used_gb := gbOf usage.used
      free_gb := gbOf usage.free
      percent := pyRound2 usage.percent
      io := env.disk_io_counters.map fun i => { read_mb := mbOf i.read_bytes, write_mb := mbOf i.write_bytes } }

/-- Embedding of `get_disk_info` (main.py:71-90): the `except Exception` clause converts
any failure into `HTTPException(400, f"Invalid disk path: {path}")`. -/
def get_disk_info (env : PsutilEnv) (path : String) : Except PyExc DiskInfo :=
  match disk_body env path with
  | .ok r => .ok r
  | .error _ => .error (.httpException 400 ("Invalid disk path: " ++ path))

/-- Embedding of `get_network_info` (main.py:93-103). -/
def get_network_info (env : PsutilEnv) : Except PyExc NetworkInfo := do
  let net ← env.net_io_counters
  pure
    { bytes_sent_mb := mbOf net.bytes_sent
      bytes_recv_mb := mbOf net.bytes_recv
      packets_sent := net.packets_sent
      packets_recv := net.packets_recv
      errors_in := net.errin
      errors_out := net.errout }

/-- Embedding of `get_system_info` (main.py:106-120): reads `psutil.boot_time()` and the
current clock on every call and derives `uptime_seconds` by `int()`
truncation of the difference. -/
def get_system_info (env : PsutilEnv) : Except PyExc SystemInfo := do
  let bt ← env.boot_time
  pure
    { hostname := env.node
      os := env.system
      os_release := env.release
      architecture := env.machine
      python_version := env.python_version
      boot_time := bt
      uptime_seconds := pyInt (qsub env.now_sys bt)
      process_count := env.pids.length }

/-- The per-row dict built in the loop of `get_top_processes`; `x or 0`
turns a `None` percent into `0` (numerically `Option.getD 0`). -/
def procRow (r : ProcRaw) : ProcInfo :=
  { pid := r.pid
    name := r.name
    cpu_percent := pyRound2 (r.cpu_percent.getD 0)
    memory_percent := pyRound2 (r.memory_percent.getD 0)
    status := r.status }

/-- The ordering used by `sorted(procs, key=lambda x: x["cpu_percent"],
reverse=True)`: descending by `cpu_percent`. -/
def procGe (a b : ProcInfo) : Prop := b.cpu_percent ≤ a.cpu_percent

instance : DecidableRel procGe := fun a b =>
  inferInstanceAs (Decidable (b.cpu_percent ≤ a.cpu_percent))

instance : IsTotal ProcInfo procGe := ⟨fun a b => le_total b.cpu_percent a.cpu_percent⟩

instance : IsTrans ProcInfo procGe := ⟨fun _ _ _ h1 h2 => le_trans h2 h1⟩

/-- Embedding of `get_top_processes` (main.py:123-137): enumerate the process table,
silently skip unreadable rows, sort stably descending by `cpu_percent`
(Python's `sorted` is a stable sort), then slice to `limit`. -/
def get_top_processes (env : PsutilEnv) (limit : ℤ) : Except PyExc (List ProcInfo) := do
  let rows ← env.process_iter
  let procs := rows.filterMap fun o => o.map procRow
  pure (pyTake limit (procs.insertionSort procGe))

/-- The `/metrics` handler `get_all_metrics` (main.py:185-199): one
timestamp, then every collector in dict order; any raised exception aborts
the whole dict construction. -/
def get_all_metrics (env : PsutilEnv) : Except PyExc Metrics := do
  let sys ← get_system_info env
  let cpu ← get_cpu_info env
  let mem ← get_memory_info env
  let dsk ← get_disk_info env "/"
  let net ← get_network_info env
  let top ← get_top_processes env 5
  pure
    { timestamp := env.now_agg
      system := sys
      cpu := cpu
      memory := mem
      disk := dsk
      network := net
      top_processes := top }

/-- The `/processes` handler `get_processes` (main.py:244-258): rejects
`limit > 50` with `HTTPException(400)` before touching psutil, echoes
`limit` in `count`. -/
def get_processes (env : PsutilEnv) (limit : ℤ) : Except PyExc ProcessesResponse :=
  if 50 < limit then .error (.httpException 400 "Limit cannot exceed 50")
  else do
    let procs ← get_top_processes env limit
    pure
      { timestamp := env.now_agg
        count := limit
        processes := procs }

/-- The process-table rows observed by the sample request below: three
readable rows (two of them tied at `cpu_percent = 2`) and one row whose
field read raises. -/
def sampleRows : List (Option ProcRaw) :=
  [some ⟨1, "a", some 2, some 1, "running"⟩,
   none,
   some ⟨2, "b", some 5, some 2, "running"⟩,
   some ⟨3, "c", some 2, some 1, "sleeping"⟩]

/-- A concrete, fully successful environment used to witness the theorems on
live inputs. -/
def sampleEnv : PsutilEnv where
  cpu_percent_overall := .ok 25
  cpu_percent_percpu := .ok [10, 40]
  cpu_count_logical := some 2
  cpu_count_physical := some 1
  getloadavg := .ok (1, 2, 3)
  virtual_memory := .ok ⟨8000000000, 4000000000, 4000000000, 50⟩
  swap_memory := .ok ⟨2000000000, 0, 0⟩
  disk_usage := fun p =>
    if p = "/" then .ok ⟨100000000000, 50000000000, 50000000000, 50⟩
    else .error (.oserror "No such file or directory")
  disk_io_counters := some ⟨1000000, 2000000⟩
  net_io_counters := .ok ⟨3000000, 4000000, 10, 20, 0, 0⟩
  boot_time := .ok 1000
  now_sys := 1010
  now_agg := 1011
  node := "host"
  system := "Linux"
  release := "6.0"
  machine := "x86_64"
  python_version := "3.11.0"
  pids := [1, 2, 3]
  process_iter := .ok sampleRows

/-- The `SystemSnapshot` produced by `get_system_info` on `sampleEnv`. -/
def sampleSystem : SystemInfo :=
  ⟨"host", "Linux", "6.0", "x86_64", "3.11.0", 1000, 10, 3⟩

/-- The `CpuSnapshot` produced by `get_cpu_info` on `sampleEnv`. -/
def sampleCpu : CpuInfo := ⟨25, [10, 40], some 2, some 1, [1, 2, 3]⟩

/-- The `DiskSnapshot` produced by `get_disk_info` on `sampleEnv` at `/`. -/
def sampleDisk : DiskInfo := ⟨"/", 100, 50, 50, 50, some ⟨1, 2⟩⟩

/-- The ranked process list produced on `sampleEnv` with a large limit:
descending `cpu_percent`, the tie between `a` and `c` kept in enumeration
order. -/
def sampleTop : List ProcInfo :=
  [⟨2, "b", 5, 2, "running"⟩, ⟨1, "a", 2, 1, "running"⟩, ⟨3, "c", 2, 1, "sleeping"⟩]

/-- The `MetricsSnapshot` produced by `get_all_metrics` on `sampleEnv`. -/
def sampleMetrics : Metrics :=
  ⟨1011, sampleSystem, sampleCpu, ⟨⟨8, 4, 4, 50⟩, ⟨2, 0, 0⟩⟩, sampleDisk,
   ⟨3, 4, 10, 20, 0, 0⟩, sampleTop⟩

/-! ### Bridge lemmas: the computable arithmetic agrees with Mathlib's -/

theorem ratFloor_eq (q : ℚ) : ratFloor q = ⌊q⌋ := Rat.floor_def.symm

theorem qmul_eq (a b : ℚ) : qmul a b = a * b := by
  rw [qmul, Rat.mkRat_eq_divInt]
  push_cast
  rw [← Rat.divInt_mul_divInt' a.num a.den b.num b.den, Rat.num_divInt_den,
    Rat.num_divInt_den]

theorem qsub_eq (a b : ℚ) : qsub a b = a - b := by
  have ha : ((a.den : ℤ)) ≠ 0 := by exact_mod_cast a.den_ne_zero
  have hb : ((b.den : ℤ)) ≠ 0 := by exact_mod_cast b.den_ne_zero
  rw [qsub, Rat.mkRat_eq_divInt]
  push_cast
  rw [← Rat.divInt_sub_divInt _ _ ha hb, Rat.num_divInt_den, Rat.num_divInt_den]

theorem oneHalf_eq : oneHalf = 1 / 2 := by
  rw [oneHalf, Rat.mkRat_eq_div]
  norm_num

theorem le_roundHalfEven (q : ℚ) : ⌊q⌋ ≤ roundHalfEven q := by
  rw [roundHalfEven, ratFloor_eq]
  split_ifs <;> omega

theorem roundHalfEven_le (q : ℚ) : roundHalfEven q ≤ ⌊q⌋ + 1 := by
  rw [roundHalfEven, ratFloor_eq]
  split_ifs <;> omega

theorem roundHalfEven_nonneg {q : ℚ} (h : 0 ≤ q) : 0 ≤ roundHalfEven q :=
  le_trans (Int.floor_nonneg.mpr h) (le_roundHalfEven q)

theorem roundHalfEven_le_intCast {q : ℚ} {N : ℤ} (h : q ≤ (N : ℚ)) :
    roundHalfEven q ≤ N := by
  have hf : ⌊q⌋ ≤ N := by
    have h2 := Int.floor_le_floor h
    rwa [Int.floor_intCast] at h2
  rcases eq_or_lt_of_le hf with hEq | hlt
  · have hq : q = (N : ℚ) := le_antisymm h (by rw [← hEq]; exact Int.floor_le q)
    subst hq
    rw [roundHalfEven, ratFloor_eq, Int.floor_intCast, qsub_eq, if_pos]
    rw [sub_self, oneHalf_eq]
    norm_num
  · exact le_trans (roundHalfEven_le q) (by omega)

theorem pyRound2_nonneg {q : ℚ} (h : 0 ≤ q) : 0 ≤ pyRound2 q := by
  rw [pyRound2, Rat.mkRat_eq_div]
  apply div_nonneg _ (by norm_num)
  exact_mod_cast roundHalfEven_nonneg (by rw [qmul_eq]; exact mul_nonneg h (by norm_num))

theorem pyRound2_le_100 {q : ℚ} (h : q ≤ 100) : pyRound2 q ≤ 100 := by
  have h1 : qmul q 100 ≤ ((10000 : ℤ) : ℚ) := by
    rw [qmul_eq]
    push_cast
    linarith
  have h2 := roundHalfEven_le_intCast h1
  rw [pyRound2, Rat.mkRat_eq_div]
  rw [div_le_iff₀ (by norm_num : (0:ℚ) < ((100:ℕ) : ℚ))]
  calc ((roundHalfEven (qmul q 100) : ℤ) : ℚ) ≤ ((10000 : ℤ) : ℚ) := by exact_mod_cast h2
    _ = 100 * ((100:ℕ) : ℚ) := by norm_num

theorem pyInt_eq_floor {q : ℚ} (h : 0 ≤ q) : pyInt q = ⌊q⌋ := by
  rw [pyInt, ← ratFloor_eq, ratFloor]
  exact Int.tdiv_eq_ediv (Rat.num_nonneg.mpr h) (by positivity)

/-! ### Lemmas about the Python slice `xs[:limit]` -/

theorem pyTake_sublist {α : Type} (limit : ℤ) (l : List α) :
    List.Sublist (pyTake limit l) l := by
  rw [pyTake]
  split_ifs <;> exact List.take_sublist _ _

theorem length_pyTake_le {α : Type} (limit : ℤ) (l : List α) :
    (pyTake limit l).length ≤ l.length :=
  (pyTake_sublist limit l).length_le

theorem length_pyTake_le_limit {α : Type} {limit : ℤ} (h : 0 ≤ limit) (l : List α) :
    ((pyTake limit l).length : ℤ) ≤ limit := by
  rw [pyTake, if_pos h]
  have h1 : (l.take limit.toNat).length ≤ limit.toNat := by
    simp [List.length_take]
  omega

theorem pyTake_of_length_le {α : Type} {limit : ℤ} {l : List α}
    (h : (l.length : ℤ) ≤ limit) : pyTake limit l = l := by
  have h0 : (0:ℤ) ≤ limit := le_trans (by positivity) h
  rw [pyTake, if_pos h0]
  apply List.take_of_length_le
  omega

/-! ### Stability of the descending sort used by `get_top_processes` -/

theorem filter_orderedInsert_cpu (a : ProcInfo) (l : List ProcInfo) (c : ℚ) :
    (l.orderedInsert procGe a).filter (fun x => decide (x.cpu_percent = c)) =
      if a.cpu_percent = c then
        a :: l.filter (fun x => decide (x.cpu_percent = c))
      else l.filter (fun x => decide (x.cpu_percent = c)) := by
  induction l with
  | nil =>
    simp only [List.orderedInsert, List.filter]
    split_ifs with hc <;> simp [hc]
  | cons b l ih =>
    rw [List.orderedInsert]
    by_cases hab : procGe a b
    · rw [if_pos hab]
      by_cases hc : a.cpu_percent = c <;> simp [List.filter_cons, hc]
    · rw [if_neg hab]
      have hlt : a.cpu_percent < b.cpu_percent := lt_of_not_le hab
      by_cases hc : a.cpu_percent = c
      · have hbne : ¬(b.cpu_percent = c) := by
          rw [← hc]
          exact fun hbc => absurd hbc.symm (ne_of_lt hlt)
        simp [List.filter_cons, hbne, ih, hc]
      · rw [List.filter_cons, List.filter_cons, ih, if_neg hc, if_neg hc]

theorem filter_insertionSort_cpu (l : List ProcInfo) (c : ℚ) :
    (l.insertionSort procGe).filter (fun x => decide (x.cpu_percent = c)) =
      l.filter (fun x => decide (x.cpu_percent = c)) := by
  induction l with
  | nil => rfl
  | cons a l ih =>
    rw [List.insertionSort, filter_orderedInsert_cpu]
    by_cases hc : a.cpu_percent = c <;> simp [List.filter_cons, hc, ih]

/-! ### Inversion lemmas for the collectors -/

theorem disk_body_ok {env : PsutilEnv} {path : String} {u : UsageRaw}
    (hu : env.disk_usage path = .ok u) :
    disk_body env path = .ok
      { path := path
        total_gb := gbOf u.total
        used_gb := gbOf u.used
        free_gb := gbOf u.free
        percent := pyRound2 u.percent
        io := env.disk_io_counters.map fun i =>
          { read_mb := mbOf i.read_bytes, write_mb := mbOf i.write_bytes } } := by
  rw [disk_body, hu]
  rfl

theorem disk_body_err {env : PsutilEnv} {path : String} {e : PyExc}
    (hu : env.disk_usage path = .error e) : disk_body env path = .error e := by
  rw [disk_body, hu]
  rfl

theorem get_disk_info_ok {env : PsutilEnv} {path : String} {u : UsageRaw}
    (hu : env.disk_usage path = .ok u) :
    get_disk_info env path = .ok
      { path := path
        total_gb := gbOf u.total
        used_gb := gbOf u.used
        free_gb := gbOf u.free
        percent := pyRound2 u.percent
        io := env.disk_io_counters.map fun i =>
          { read_mb := mbOf i.read_bytes, write_mb := mbOf i.write_bytes } } := by
  rw [get_disk_info, disk_body_ok hu]

theorem get_disk_info_err {env : PsutilEnv} {path : String} {e : PyExc}
    (hu : env.disk_usage path = .error e) :
    get_disk_info env path =
      .error (.httpException 400 ("Invalid disk path: " ++ path)) := by
  rw [get_disk_info, disk_body_err hu]

theorem get_system_info_eq {env : PsutilEnv} {bt : ℚ}
    (hb : env.boot_time = .ok bt) :
    get_system_info env = .ok
      { hostname := env.node
        os := env.system
        os_release := env.release
        architecture := env.machine
        python_version := env.python_version
        boot_time := bt
        uptime_seconds := pyInt (qsub env.now_sys bt)
        process_count := env.pids.length } := by
  rw [get_system_info, hb]
  rfl

theorem get_cpu_info_eq {env : PsutilEnv} {p : ℚ} {ps : List ℚ} {la : ℚ × ℚ × ℚ}
    (h1 : env.cpu_percent_overall = .ok p) (h2 : env.cpu_percent_percpu = .ok ps)
    (h3 : env.getloadavg = .ok la) :
    get_cpu_info env = .ok
      { percent := pyRound2 p
        percent_per_core := ps.map pyRound2
        core_count := env.cpu_count_logical
        core_count_physical := env.cpu_count_physical
        load_avg := [pyRound2 la.1, pyRound2 la.2.1, pyRound2 la.2.2] } := by
  rw [get_cpu_info, h1, h2, h3]
  rfl

theorem get_memory_info_eq {env : PsutilEnv} {ram : MemRaw} {swap : SwapRaw}
    (h1 : env.virtual_memory = .ok ram) (h2 : env.swap_memory = .ok swap) :
    get_memory_info env = .ok
      { ram :=
          { total_gb := gbOf ram.total
            used_gb := gbOf ram.used
            available_gb := gbOf ram.available
            percent := pyRound2 ram.percent }
        swap :=
          { total_gb := gbOf swap.total
            used_gb := gbOf swap.used
            percent := pyRound2 swap.percent } } := by
  rw [get_memory_info, h1, h2]
  rfl

theorem get_top_processes_eq {env : PsutilEnv} {rows : List (Option ProcRaw)}
    (h : env.process_iter = .ok rows) (limit : ℤ) :
    get_top_processes env limit = .ok
      (pyTake limit ((rows.filterMap fun o => o.map procRow).insertionSort procGe)) := by
  rw [get_top_processes, h]
  rfl

theorem exbind_ok {ε α β : Type} (a : α) (f : α → Except ε β) :
    (Except.ok a >>= f) = f a := rfl

theorem exbind_err {ε α β : Type} (e : ε) (f : α → Except ε β) :
    ((Except.error e : Except ε α) >>= f) = Except.error e := rfl

theorem expure {ε α : Type} (a : α) : (pure a : Except ε α) = Except.ok a := rfl

/-! ### The claims -/

/-- The list the `/processes` sample request with `limit = 2` returns. -/
def sampleTop2 : List ProcInfo :=
  [⟨2, "b", 5, 2, "running"⟩, ⟨1, "a", 2, 1, "running"⟩]

/-- An environment observed half a second after boot. -/
def envC7 : PsutilEnv := { sampleEnv with boot_time := .ok 0, now_sys := oneHalf }

/-- C1 counterexample to the claim as stated: the claim quantifies over every
limit, but with the Python int `limit = -1` the slice `[:-1]` drops only the
last entry, so on a table with three readable processes the result has
length 2, which is not ≤ -1. -/
theorem C1_counterexample :
    (get_top_processes sampleEnv (-1)).toOption.map List.length = some 2 ∧
    ¬ ((2 : ℤ) ≤ -1) := ⟨rfl, by decide⟩

/-- C1 (amended): for every nonnegative limit and every process table,
`get_top_processes` returns a list of length at most `limit` and at most the
number of enumerated rows, sorted descending by `cpu_percent` and with a
stable tie-break: for each key value, the returned entries with that
`cpu_percent` form a sublist (same relative order) of the successfully read
rows in enumeration order. -/
theorem C1_top_processes (env : PsutilEnv) (limit : ℤ) (hl : 0 ≤ limit)
    (rows : List (Option ProcRaw)) (hrows : env.process_iter = .ok rows)
    (res : List ProcInfo) (hres : get_top_processes env limit = .ok res) :
    ((res.length : ℤ) ≤ limit) ∧
    res.length ≤ rows.length ∧
    res.Pairwise (fun a b => b.cpu_percent ≤ a.cpu_percent) ∧
    ∀ c : ℚ, List.Sublist
      (res.filter fun x => decide (x.cpu_percent = c))
      ((rows.filterMap fun o => o.map procRow).filter
        fun x => decide (x.cpu_percent = c)) := by
  rw [get_top_processes_eq hrows] at hres
  obtain rfl := Except.ok.inj hres
  refine ⟨length_pyTake_le_limit hl _, ?_, ?_, ?_⟩
  · refine le_trans (length_pyTake_le _ _) ?_
    rw [List.length_insertionSort]
    exact List.length_filterMap_le _ _
  · exact List.Pairwise.sublist (pyTake_sublist _ _)
      (List.sorted_insertionSort procGe _)
  · intro c
    have h1 := (pyTake_sublist limit
      ((rows.filterMap fun o => o.map procRow).insertionSort procGe)).filter
      (fun x => decide (x.cpu_percent = c))
    rwa [filter_insertionSort_cpu] at h1

/-- C1 witness: the sample request with `limit = 2` keeps the two busiest
rows, in order `b` (5%) then `a` (2%), and the tie class at 2% stays in
enumeration order. -/
theorem C1_witness :
    ((sampleTop2.length : ℤ) ≤ 2) ∧
    sampleTop2.length ≤ sampleRows.length ∧
    sampleTop2.Pairwise (fun a b => b.cpu_percent ≤ a.cpu_percent) ∧
    List.Sublist (sampleTop2.filter fun x => decide (x.cpu_percent = 5))
      ((sampleRows.filterMap fun o => o.map procRow).filter
        fun x => decide (x.cpu_percent = 5)) :=
  have h := C1_top_processes sampleEnv 2 (by decide) sampleRows rfl sampleTop2 rfl
  ⟨h.1, h.2.1, h.2.2.1, h.2.2.2 5⟩

/-- C7 counterexample to the claim as stated: on a host observed half a
second after boot (`boot_time = 0`, `now = 1/2`, a running host since
`0 < now`), `int()` truncation makes `uptime_seconds = 0`, which is not
greater than 0. -/
theorem C7_counterexample :
    (get_system_info envC7).toOption.map SystemInfo.uptime_seconds = some 0 ∧
    envC7.boot_time = .ok 0 ∧ (0 : ℚ) < envC7.now_sys ∧ ¬ ((0 : ℤ) < 0) :=
  ⟨rfl, rfl, by decide, by decide⟩

/-- C7 (amended): `get_system_info` reads `boot_time` afresh on the call
(the snapshot echoes the per-call reading), `uptime_seconds` is exactly the
`int()` truncation of `now - boot_time` (so within one second of the true
difference), it is nonnegative whenever the clock is not behind the boot
instant, and it is strictly positive once at least one full second has
elapsed since boot (during the first second truncation yields 0). -/
theorem C7_uptime (env : PsutilEnv) (b : ℚ) (hb : env.boot_time = .ok b)
    (s : SystemInfo) (hs : get_system_info env = .ok s) :
    s.boot_time = b ∧
    s.uptime_seconds = pyInt (env.now_sys - b) ∧
    (b ≤ env.now_sys → 0 ≤ s.uptime_seconds) ∧
    (b + 1 ≤ env.now_sys → 0 < s.uptime_seconds) := by
  rw [get_system_info_eq hb] at hs
  obtain rfl := Except.ok.inj hs
  refine ⟨rfl, ?_, ?_, ?_⟩
  · show pyInt (qsub env.now_sys b) = pyInt (env.now_sys - b)
    rw [qsub_eq]
  · intro h
    show 0 ≤ pyInt (qsub env.now_sys b)
    rw [qsub_eq, pyInt_eq_floor (sub_nonneg.mpr h)]
    exact Int.floor_nonneg.mpr (sub_nonneg.mpr h)
  · intro h
    have h0 : (0 : ℚ) ≤ env.now_sys - b := by linarith
    show 0 < pyInt (qsub env.now_sys b)
    rw [qsub_eq, pyInt_eq_floor h0]
    have h1 : (1 : ℤ) ≤ ⌊env.now_sys - b⌋ := by
      rw [Int.le_floor]
      push_cast
      linarith
    omega

/-- C7 witness: the sample host booted at 1000 and observed at 1010. -/
theorem C7_witness :
    sampleSystem.boot_time = 1000 ∧
    sampleSystem.uptime_seconds = pyInt (sampleEnv.now_sys - 1000) ∧
    0 ≤ sampleSystem.uptime_seconds ∧ 0 < sampleSystem.uptime_seconds :=
  have h := C7_uptime sampleEnv 1000 rfl sampleSystem rfl
  ⟨h.1, h.2.1,
   h.2.2.1 (show (1000 : ℚ) ≤ 1010 by norm_num),
   h.2.2.2 (show (1000 : ℚ) + 1 ≤ 1010 by norm_num)⟩

/-- C8: whenever the psutil sources deliver percentages in [0, 100] (the
invariant the spec attributes to the sources, "source-enforced, not
re-validated"), every percentage in a successful `get_cpu_info`,
`get_memory_info` and `get_disk_info` result lies in [0, 100]: the code only
applies `round(·, 2)`, which preserves the interval. -/
theorem C8_percent_bounds (env : PsutilEnv)
    (hcpu : ∀ p, env.cpu_percent_overall = .ok p → 0 ≤ p ∧ p ≤ 100)
    (hpercpu : ∀ ps, env.cpu_percent_percpu = .ok ps → ∀ x ∈ ps, 0 ≤ x ∧ x ≤ 100)
    (hram : ∀ m, env.virtual_memory = .ok m → 0 ≤ m.percent ∧ m.percent ≤ 100)
    (hswap : ∀ sw, env.swap_memory = .ok sw → 0 ≤ sw.percent ∧ sw.percent ≤ 100)
    (hdisk : ∀ path u, env.disk_usage path = .ok u → 0 ≤ u.percent ∧ u.percent ≤ 100) :
    (∀ c, get_cpu_info env = .ok c →
      (0 ≤ c.percent ∧ c.percent ≤ 100) ∧
      ∀ x ∈ c.percent_per_core, 0 ≤ x ∧ x ≤ 100) ∧
    (∀ m, get_memory_info env = .ok m →
      (0 ≤ m.ram.percent ∧ m.ram.percent ≤ 100) ∧
      (0 ≤ m.swap.percent ∧ m.swap.percent ≤ 100)) ∧
    (∀ path d, get_disk_info env path = .ok d →
      0 ≤ d.percent ∧ d.percent ≤ 100) := by
  refine ⟨?_, ?_, ?_⟩
  · intro c hc
    cases hp : env.cpu_percent_overall with
    | error e =>
      rw [get_cpu_info, hp] at hc
      exact Except.noConfusion (hc : (Except.error e : Except PyExc CpuInfo) = .ok c)
    | ok p =>
      cases hps : env.cpu_percent_percpu with
      | error e =>
        rw [get_cpu_info, hp, hps] at hc
        exact Except.noConfusion (hc : (Except.error e : Except PyExc CpuInfo) = .ok c)
      | ok ps =>
        cases hla : env.getloadavg with
        | error e =>
          rw [get_cpu_info, hp, hps, hla] at hc
          exact Except.noConfusion (hc : (Except.error e : Except PyExc CpuInfo) = .ok c)
        | ok la =>
          rw [get_cpu_info_eq hp hps hla] at hc
          obtain rfl := Except.ok.inj hc
          obtain ⟨h0, h1⟩ := hcpu p hp
          refine ⟨⟨pyRound2_nonneg h0, pyRound2_le_100 h1⟩, ?_⟩
          intro x hx
          obtain ⟨y, hy, rfl⟩ := List.mem_map.mp hx
          exact ⟨pyRound2_nonneg (hpercpu ps hps y hy).1,
            pyRound2_le_100 (hpercpu ps hps y hy).2⟩
  · intro m hm
    cases hv : env.virtual_memory with
    | error e =>
      rw [get_memory_info, hv] at hm
      exact Except.noConfusion (hm : (Except.error e : Except PyExc MemoryInfo) = .ok m)
    | ok ram =>
      cases hsw : env.swap_memory with
      | error e =>
        rw [get_memory_info, hv, hsw] at hm
        exact Except.noConfusion (hm : (Except.error e : Except PyExc MemoryInfo) = .ok m)
      | ok sw =>
        rw [get_memory_info_eq hv hsw] at hm
        obtain rfl := Except.ok.inj hm
        exact ⟨⟨pyRound2_nonneg (hram ram hv).1, pyRound2_le_100 (hram ram hv).2⟩,
          ⟨pyRound2_nonneg (hswap sw hsw).1, pyRound2_le_100 (hswap sw hsw).2⟩⟩
  · intro path d hd
    cases hu : env.disk_usage path with
    | error e =>
      rw [get_disk_info_err hu] at hd
      exact Except.noConfusion hd
    | ok u =>
      rw [get_disk_info_ok hu] at hd
      obtain rfl := Except.ok.inj hd
      exact ⟨pyRound2_nonneg (hdisk path u hu).1, pyRound2_le_100 (hdisk path u hu).2⟩

/-- C8 witness: on the sample environment (all source percentages in range)
the returned CPU and disk percentages are in [0, 100]. -/
theorem C8_witness :
    (0 ≤ sampleCpu.percent ∧ sampleCpu.percent ≤ 100) ∧
    (0 ≤ sampleDisk.percent ∧ sampleDisk.percent ≤ 100) :=
  have h := C8_percent_bounds sampleEnv
    (fun p hp => by injection hp with h2; subst h2; exact ⟨by decide, by decide⟩)
    (fun ps hps => by
      injection hps with h2
      subst h2
      intro x hx
      fin_cases hx <;> exact ⟨by decide, by decide⟩)
    (fun m hm => by injection hm with h2; subst h2; exact ⟨by decide, by decide⟩)
    (fun sw hsw => by injection hsw with h2; subst h2; exact ⟨by decide, by decide⟩)
    (fun path u hu => by
      have hu' : (if path = "/" then
          (.ok ⟨100000000000, 50000000000, 50000000000, 50⟩ : Except PyExc UsageRaw)
        else .error (.oserror "No such file or directory")) = .ok u := hu
      split_ifs at hu' with hp
      injection hu' with h2
      subst h2
      exact ⟨by decide, by decide⟩)
  ⟨(h.1 sampleCpu rfl).1, h.2.2 "/" sampleDisk rfl⟩

/-- C3: `get_all_metrics` fails atomically: the aggregate succeeds exactly
when all six required sub-collections (system, cpu, memory, disk at the
default path `/`, network, top-5 processes) succeed, and on success each
section of the aggregate is exactly the corresponding sub-collection's
result — there is no partial-success aggregate. -/
theorem C3_all_metrics_atomic (env : PsutilEnv) :
    ((get_all_metrics env).isOk = true ↔
      ((get_system_info env).isOk = true ∧ (get_cpu_info env).isOk = true ∧
       (get_memory_info env).isOk = true ∧ (get_disk_info env "/").isOk = true ∧
       (get_network_info env).isOk = true ∧ (get_top_processes env 5).isOk = true)) ∧
    (∀ m, get_all_metrics env = .ok m →
      get_system_info env = .ok m.system ∧ get_cpu_info env = .ok m.cpu ∧
      get_memory_info env = .ok m.memory ∧ get_disk_info env "/" = .ok m.disk ∧
      get_network_info env = .ok m.network ∧
      get_top_processes env 5 = .ok m.top_processes) := by
  constructor
  · cases hs : get_system_info env <;>
      cases hc : get_cpu_info env <;>
      cases hm2 : get_memory_info env <;>
      cases hd : get_disk_info env "/" <;>
      cases hn : get_network_info env <;>
      cases ht : get_top_processes env 5 <;>
      simp [get_all_metrics, hs, hc, hm2, hd, hn, ht, exbind_ok, exbind_err,
        expure, Except.isOk, Except.toBool]
  · intro m hm'
    cases hs : get_system_info env <;>
      cases hc : get_cpu_info env <;>
      cases hm2 : get_memory_info env <;>
      cases hd : get_disk_info env "/" <;>
      cases hn : get_network_info env <;>
      cases ht : get_top_processes env 5 <;>
      simp only [get_all_metrics, hs, hc, hm2, hd, hn, ht, exbind_ok, exbind_err,
        expure] at hm' <;>
      first
        | exact Except.noConfusion hm'
        | (obtain rfl := Except.ok.inj hm'; exact ⟨rfl, rfl, rfl, rfl, rfl, rfl⟩)

/-- C3 witness: on the fully successful sample environment the aggregate
succeeds. -/
theorem C3_witness : (get_all_metrics sampleEnv).isOk = true :=
  (C3_all_metrics_atomic sampleEnv).1.mpr ⟨rfl, rfl, rfl, rfl, rfl, rfl⟩

/-- C4: a successful `get_all_metrics` carries exactly one capture
timestamp, the one top-level `now` read at the aggregation call: the
`timestamp` field equals that clock reading, and changing that reading
changes only the `timestamp` field of the result — no section of the
aggregate carries or depends on a per-section copy of it (the snapshot
record types have no per-section timestamp field). -/
theorem C4_single_timestamp (env : PsutilEnv) (t : ℚ) :
    (∀ m, get_all_metrics env = .ok m → m.timestamp = env.now_agg) ∧
    get_all_metrics { env with now_agg := t } =
      (get_all_metrics env).map fun m => { m with timestamp := t } := by
  have e1 : get_system_info { env with now_agg := t } = get_system_info env := rfl
  have e2 : get_cpu_info { env with now_agg := t } = get_cpu_info env := rfl
  have e3 : get_memory_info { env with now_agg := t } = get_memory_info env := rfl
  have e4 : get_disk_info { env with now_agg := t } "/" = get_disk_info env "/" := rfl
  have e5 : get_network_info { env with now_agg := t } = get_network_info env := rfl
  have e6 : get_top_processes { env with now_agg := t } 5 = get_top_processes env 5 := rfl
  constructor
  · intro m hm'
    cases hs : get_system_info env <;>
      cases hc : get_cpu_info env <;>
      cases hm2 : get_memory_info env <;>
      cases hd : get_disk_info env "/" <;>
      cases hn : get_network_info env <;>
      cases ht : get_top_processes env 5 <;>
      simp only [get_all_metrics, hs, hc, hm2, hd, hn, ht, exbind_ok, exbind_err,
        expure] at hm' <;>
      first
        | exact Except.noConfusion hm'
        | (obtain rfl := Except.ok.inj hm'; rfl)
  · cases hs : get_system_info env <;>
      cases hc : get_cpu_info env <;>
      cases hm2 : get_memory_info env <;>
      cases hd : get_disk_info env "/" <;>
      cases hn : get_network_info env <;>
      cases ht : get_top_processes env 5 <;>
      simp [get_all_metrics, e1, e2, e3, e4, e5, e6, hs, hc, hm2, hd, hn, ht,
        exbind_ok, exbind_err, expure, Except.map]

/-- C4 witness: the sample aggregate's timestamp is the aggregation-time
clock reading of the sample environment. -/
theorem C4_witness : sampleMetrics.timestamp = sampleEnv.now_agg :=
  (C4_single_timestamp sampleEnv 42).1 sampleMetrics rfl

/-- C5: for every path whose `psutil.disk_usage` call fails, `get_disk_info`
fails with `HTTPException(400)` whose detail message carries the offending
path, and no other error can ever escape `get_disk_info` (the
`except Exception` clause converts every failure into this one error). -/
theorem C5_invalid_path_http400 (env : PsutilEnv) (path : String)
    (hfail : (env.disk_usage path).isOk = false) :
    get_disk_info env path =
      .error (.httpException 400 ("Invalid disk path: " ++ path)) ∧
    ∀ e, get_disk_info env path = .error e →
      e = .httpException 400 ("Invalid disk path: " ++ path) := by
  constructor
  · cases hu : env.disk_usage path with
    | error e0 => exact get_disk_info_err hu
    | ok u => rw [hu] at hfail; simp [Except.isOk, Except.toBool] at hfail
  · intro e he
    cases hu : env.disk_usage path with
    | error e0 =>
      rw [get_disk_info_err hu] at he
      exact (Except.error.inj he).symm
    | ok u =>
      rw [get_disk_info_ok hu] at he
      exact absurd he (by simp)

/-- C5 witness: the sample environment at a path that does not exist. -/
theorem C5_witness :
    get_disk_info sampleEnv "/bad" =
      .error (.httpException 400 ("Invalid disk path: " ++ "/bad")) :=
  (C5_invalid_path_http400 sampleEnv "/bad" rfl).1

/-- C6: for every path whose `psutil.disk_usage` call succeeds, the returned
`DiskSnapshot` echoes the requested path unchanged. -/
theorem C6_disk_path_echo (env : PsutilEnv) (path : String) (d : DiskInfo)
    (h : get_disk_info env path = .ok d) : d.path = path := by
  cases hu : env.disk_usage path with
  | error e0 =>
    rw [get_disk_info_err hu] at h
    exact absurd h (by simp)
  | ok u =>
    rw [get_disk_info_ok hu] at h
    rw [← Except.ok.inj h]

/-- C6 witness: the sample environment at the root path. -/
theorem C6_witness : sampleDisk.path = "/" :=
  C6_disk_path_echo sampleEnv "/" sampleDisk rfl

/-- C2 (amended): a request with `limit > 50` fails with
`HTTPException(400, "Limit cannot exceed 50")` before any OS sampling — the
result is the same error for every environment, so no psutil state is
consulted — and every request with `limit ≤ 50` (including values ≤ 1,
which the code does not reject) is served whenever process enumeration
succeeds. -/
theorem C2_limit_guard (env : PsutilEnv) (limit : ℤ) :
    (50 < limit →
      get_processes env limit = .error (.httpException 400 "Limit cannot exceed 50")) ∧
    (limit ≤ 50 → ∀ rows, env.process_iter = .ok rows →
      (get_processes env limit).isOk = true) := by
  constructor
  · intro h
    rw [get_processes, if_pos h]
  · intro h rows hrows
    rw [get_processes, if_neg (not_lt.mpr h), get_top_processes_eq hrows]
    rfl

/-- C2 witness: `limit = 51` is rejected, `limit = 5` is served. -/
theorem C2_witness :
    get_processes sampleEnv 51 = .error (.httpException 400 "Limit cannot exceed 50") ∧
    (get_processes sampleEnv 5).isOk = true :=
  ⟨(C2_limit_guard sampleEnv 51).1 (by decide),
   (C2_limit_guard sampleEnv 5).2 (by decide) sampleRows rfl⟩

/-- C2 counterexample to the claim as stated: the claim says no limit value
outside the interval (1, 50] is served, but `limit = 1` lies outside that
interval (1 < 1 is false) and the code serves it with HTTP 200. -/
theorem C2_counterexample :
    (get_processes sampleEnv 1).isOk = true ∧ ¬ ((1 : ℤ) < 1) := by
  constructor
  · rfl
  · decide

/-- C9: the per-core utilization list of a successful `get_cpu_info` call has
exactly one entry per element of the psutil per-core sample; whenever psutil
reports the logical core count as the length of that sample (its documented
behaviour), the snapshot's `core_count` equals the length of
`percent_per_core`; and a platform reporting no per-core data yields an
empty sequence, not an error. -/
theorem C9_percore_length (env : PsutilEnv) (ps : List ℚ)
    (hps : env.cpu_percent_percpu = .ok ps) (c : CpuInfo)
    (hc : get_cpu_info env = .ok c) :
    c.percent_per_core.length = ps.length ∧
    c.core_count = env.cpu_count_logical ∧
    (env.cpu_count_logical = some ps.length →
      c.core_count = some c.percent_per_core.length) ∧
    (ps = [] → c.percent_per_core = []) := by
  cases hp : env.cpu_percent_overall with
  | error e =>
    rw [get_cpu_info, hp] at hc
    exact Except.noConfusion (hc : (Except.error e : Except PyExc CpuInfo) = .ok c)
  | ok p =>
    cases hla : env.getloadavg with
    | error e =>
      rw [get_cpu_info, hp, hps, hla] at hc
      exact Except.noConfusion (hc : (Except.error e : Except PyExc CpuInfo) = .ok c)
    | ok la =>
      rw [get_cpu_info_eq hp hps hla] at hc
      obtain rfl := (Except.ok.inj hc).symm
      refine ⟨by simp, rfl, ?_, ?_⟩
      · intro hcount
        simp [hcount]
      · intro h0
        simp [h0]

/-- C9 witness: on the sample environment the per-core list has length 2 and
`core_count` agrees with it. -/
theorem C9_witness : sampleCpu.core_count = some sampleCpu.percent_per_core.length :=
  (C9_percore_length sampleEnv [10, 40] rfl sampleCpu rfl).2.2.1 rfl

/-- C10: for every accepted request (`limit ≤ 50`), the `count` field of the
`/processes` response equals the requested `limit` — not the length of the
returned list — and the two differ whenever fewer than `limit` processes
were successfully enumerated. -/
theorem C10_count_echoes_limit (env : PsutilEnv) (limit : ℤ) (hle : limit ≤ 50)
    (r : ProcessesResponse) (hr : get_processes env limit = .ok r) :
    r.count = limit ∧
    (∀ rows, env.process_iter = .ok rows →
      ((rows.filterMap fun o => o.map procRow).length : ℤ) < limit →
      (r.processes.length : ℤ) ≠ r.count) := by
  rw [get_processes, if_neg (not_lt.mpr hle)] at hr
  cases hrows' : env.process_iter with
  | error e =>
    rw [get_top_processes, hrows'] at hr
    exact Except.noConfusion
      (hr : (Except.error e : Except PyExc ProcessesResponse) = .ok r)
  | ok rows' =>
    rw [get_top_processes_eq hrows'] at hr
    obtain rfl := Except.ok.inj hr
    refine ⟨rfl, ?_⟩
    intro rows hrows hshort
    obtain rfl := Except.ok.inj hrows
    show ((pyTake limit ((rows'.filterMap fun o => o.map procRow).insertionSort
      procGe)).length : ℤ) ≠ limit
    have hlen : (pyTake limit ((rows'.filterMap fun o => o.map procRow).insertionSort
        procGe)).length = (rows'.filterMap fun o => o.map procRow).length := by
      rw [pyTake_of_length_le]
      · exact List.length_insertionSort _ _
      · rw [List.length_insertionSort]
        omega
    rw [hlen]
    omega

/-- C10 witness: on the sample environment with `limit = 5` only 3 processes
are enumerable, so `count = 5` while the list has length 3. -/
theorem C10_witness :
    (⟨1011, 5, sampleTop⟩ : ProcessesResponse).count = 5 ∧
    ((⟨1011, 5, sampleTop⟩ : ProcessesResponse).processes.length : ℤ) ≠
      (⟨1011, 5, sampleTop⟩ : ProcessesResponse).count :=
  have h := C10_count_echoes_limit sampleEnv 5 (by decide) ⟨1011, 5, sampleTop⟩ rfl
  ⟨h.1, h.2 sampleRows rfl (by decide)⟩

end DevOpsApi
